import Mathlib

/-!
Verification of the elevation-profile engine of `src/src/App.jsx`
(class `ElevationProfileService`).

Modelling conventions:
* JavaScript numbers are modelled as real numbers (`ℝ`); `Math.sin`,
  `Math.cos`, `Math.sqrt`, `Math.atan2` and `Math.PI` are modelled by the
  corresponding exact real functions (floating-point rounding and `NaN`
  are outside the model).
* A coordinate is the `[longitude, latitude]` pair the source stores, so
  `coord.1` models `coord[0]` (longitude) and `coord.2` models `coord[1]`
  (latitude).
* Network effects are modelled by oracles passed explicitly: the outcome of
  one `getSingleElevationUSGS3DEP` call (throw, or elevation value) is a
  function of the queried coordinate, and the outcome of the one
  Open-Elevation POST is a function of the request's location list.
  A thrown JS exception is an `Except.error`.
-/

/-- A coordinate as the source stores it: a `[longitude, latitude]` pair
of JS numbers. -/
abbrev Coord : Type := ℝ × ℝ

/-- The JS exceptions that the elevation pipeline can throw, by origin:
`inputError` models `new Error("Invalid coordinates: need at least 2 points")`,
`httpError` a `!response.ok` throw carrying the status, `apiError` a
`data.error` throw from the USGS payload, `typeError` a TypeError raised by
indexing past the end of an array, and `allProvidersFailed` the terminal
`new Error("Failed to get elevation data from all sources. ...")`. -/
inductive JsError where
  | inputError
  | httpError (status : ℕ)
  | apiError
  | typeError
  | allProvidersFailed
deriving DecidableEq

/-- Model of JavaScript `Math.atan2 y x`: the principal argument of the
complex number `x + y*i`, which matches `Math.atan2` on every input
(including `Math.atan2 0 0 = 0`). -/
noncomputable def atan2 (y x : ℝ) : ℝ := Complex.arg ⟨x, y⟩

/-- Source method `haversineDistance(coord1, coord2)`, `src/src/App.jsx` lines 38-54:
haversine great-circle distance with Earth radius 6371000 m. -/
noncomputable def haversineDistance (coord1 coord2 : Coord) : ℝ :=
  let R : ℝ := 6371000
  let lat1 := coord1.2 * Real.pi / 180
  let lat2 := coord2.2 * Real.pi / 180
  let deltaLat := (coord2.2 - coord1.2) * Real.pi / 180
  let deltaLng := (coord2.1 - coord1.1) * Real.pi / 180
  let a := Real.sin (deltaLat / 2) * Real.sin (deltaLat / 2) +
    Real.cos lat1 * Real.cos lat2 * Real.sin (deltaLng / 2) * Real.sin (deltaLng / 2)
  let c := 2 * atan2 (Real.sqrt a) (Real.sqrt (1 - a))
  R * c

/-- The loop body of `calculateCumulativeDistances`: given the running total
and the previous coordinate, emit the cumulative distance of each remaining
coordinate. -/
noncomputable def cumFrom (total : ℝ) (prev : Coord) : List Coord → List ℝ
  | [] => []
  | c :: rest =>
    (total + haversineDistance prev c) :: cumFrom (total + haversineDistance prev c) c rest

/-- Source method `calculateCumulativeDistances(coordinates)`, `src/src/App.jsx`
lines 56-70: starts from the array `[0]` and pushes the running haversine
total for indices `1 .. length-1`.  Note that on an empty input the source
still returns `[0]`. -/
noncomputable def calculateCumulativeDistances : List Coord → List ℝ
  | [] => [0]
  | c :: rest => 0 :: cumFrom 0 c rest

/-- The stride used by both providers' coordinate sampling:
`Math.max(1, Math.floor(coordinates.length / maxPoints))` with
`maxPoints = 50` (`src/src/App.jsx` lines 76-77 and 187-188). -/
def sampleStep (n : ℕ) : ℕ := max 1 (n / 50)

/-- The coordinate sampling both providers perform:
`coordinates.filter((_, index) => index % step === 0)`
(`src/src/App.jsx` lines 78-80 and 189-191; the source duplicates the
snippet verbatim in both provider methods). -/
def sampleCoords (coordinates : List Coord) : List Coord :=
  ((coordinates.enum.filter (fun p => p.1 % sampleStep coordinates.length == 0)).map
    Prod.snd)

/-- Proof-side reformulation of index-stride filtering: keep the head, then
drop `step - 1` elements and repeat. -/
def takeEvery (step : ℕ) : List α → List α
  | [] => []
  | a :: rest => a :: takeEvery step (rest.drop (step - 1))
termination_by l => l.length
decreasing_by
  simp only [List.length_drop, List.length_cons]
  omega

/-- Model of the JS spread call `Math.min(...values)`.  The empty case
returns `Math.min()`'s `Infinity`, which has no real counterpart; it is
unreachable here because `getElevationProfile` only computes statistics for
a non-empty point list (see `finishProfile`). -/
noncomputable def jsMathMin : List ℝ → ℝ
  | [] => 0
  | x :: xs => xs.foldl min x

/-- Model of the JS spread call `Math.max(...values)`; empty case as in
`jsMathMin`. -/
noncomputable def jsMathMax : List ℝ → ℝ
  | [] => 0
  | x :: xs => xs.foldl max x

/-- Source method `calculateElevationGain(elevations)`, `src/src/App.jsx` lines
288-295: the sum over consecutive pairs of the positive elevation deltas.
The JS loop accumulates left to right; this structural recursion produces
the same real sum (addition is associative and commutative). -/
noncomputable def calculateElevationGain : List ℝ → ℝ
  | [] => 0
  | [_] => 0
  | a :: b :: rest =>
    (if b - a > 0 then b - a else 0) + calculateElevationGain (b :: rest)

/-- Source method `calculateElevationLoss(elevations)`, `src/src/App.jsx` lines
297-304: the sum over consecutive pairs of `Math.abs` of the negative
elevation deltas. -/
noncomputable def calculateElevationLoss : List ℝ → ℝ
  | [] => 0
  | [_] => 0
  | a :: b :: rest =>
    (if b - a < 0 then |b - a| else 0) + calculateElevationLoss (b :: rest)

/-- A JSON-ish value as it can appear in the USGS identify payload fields:
`null`, a number, or a string.  Absence of a field (`undefined`) is modelled
by `Option`; numbers here are modelled as rationals, which suffices for the
payload-shape analysis of `getSingleElevationUSGS3DEP`. -/
inductive JsValue where
  | null
  | num (x : ℚ)
  | str (s : String)
deriving DecidableEq

/-- JS truthiness for a `JsValue`: `null`, `0` and `""` are falsy. -/
def JsValue.truthy : JsValue → Bool
  | .null => false
  | .num x => decide (x ≠ 0)
  | .str s => decide (s ≠ "")

/-- JS truthiness for a possibly-absent value: `undefined` is falsy. -/
def jsTruthy : Option JsValue → Bool
  | none => false
  | some v => v.truthy

/-- Numeric value of a digit list, most significant first. -/
def digitsVal (ds : List Char) : ℕ := ds.foldl (fun n c => 10 * n + (c.toNat - 48)) 0

/-- Model of JavaScript `parseFloat` on the strings relevant here: an
optional sign, then decimal digits with an optional fractional part;
trailing garbage is ignored; `none` models the `NaN` result.  (Exponent
notation and special values are not modelled; the call site only feeds this
the first space-delimited token of a pixel-value string.) -/
def parseFloat (s : String) : Option ℚ :=
  let cs := s.toList
  let signAndRest : ℚ × List Char :=
    match cs with
    | '-' :: t => (-1, t)
    | '+' :: t => (1, t)
    | _ => (1, cs)
  let sign := signAndRest.1
  let cs1 := signAndRest.2
  let intDigits := cs1.takeWhile Char.isDigit
  let rest := cs1.dropWhile Char.isDigit
  let fracDigits : List Char :=
    match rest with
    | '.' :: t => t.takeWhile Char.isDigit
    | _ => []
  if intDigits.isEmpty && fracDigits.isEmpty then none
  else some (sign * ((digitsVal intDigits : ℚ) +
    (digitsVal fracDigits : ℚ) / 10 ^ fracDigits.length))

/-- Model of `data.catalogItems.features[i].attributes` of the USGS identify
payload: `Pixel_Value` is `none` when the attribute is absent
(`undefined`). -/
structure CatalogAttributes where
  Pixel_Value : Option JsValue
deriving DecidableEq

/-- One entry of `data.catalogItems.features`. -/
structure CatalogFeature where
  attributes : Option CatalogAttributes
deriving DecidableEq

/-- Model of `data.catalogItems` of the USGS identify payload. -/
structure CatalogItems where
  features : Option (List CatalogFeature)
deriving DecidableEq

/-- The fields of the USGS identify payload probed by
`getSingleElevationUSGS3DEP` (`src/src/App.jsx` lines 158-181). `none`
models an absent field (`undefined`). -/
structure USGSResponse where
  value : Option JsValue
  catalogItems : Option CatalogItems
  name : Option JsValue
deriving DecidableEq

/-- The third branch of the shape probe:
`data.name === "Pixel" && data.value`, splitting a string value on spaces
and taking `parseFloat(values[0]) || 0` (`src/src/App.jsx` lines 170-179).
Note `parseFloat(x) || 0` equals `parseFloat(x)` when that is a nonzero
number and `0` when it is `NaN` or `0`, which is `(parseFloat x).getD 0`
in this model. -/
def pixelBranch (data : USGSResponse) : JsValue :=
  if data.name = some (JsValue.str "Pixel") ∧ jsTruthy data.value = true then
    match data.value with
    | some (JsValue.str s) =>
      JsValue.num ((parseFloat ((s.splitOn " ").headD "")).getD 0)
    | some v => v
    | none => JsValue.num 0
  else JsValue.num 0

/-- Branches two and three of the shape probe, i.e. the `else if` chain
entered when `data.value` is `undefined` or `null`:
`data.catalogItems && data.catalogItems.features && length > 0` first
(keeping elevation `0` when `attributes` or `Pixel_Value` is missing),
otherwise the `name === "Pixel"` branch (`src/src/App.jsx` lines 164-179). -/
def catalogOrPixel (data : USGSResponse) : JsValue :=
  match data.catalogItems with
  | some ci =>
    match ci.features with
    | some (feature :: _) =>
      match feature.attributes with
      | some attrs =>
        match attrs.Pixel_Value with
        | some pv => pv
        | none => JsValue.num 0
      | none => JsValue.num 0
    | some [] => pixelBranch data
    | none => pixelBranch data
  | none => pixelBranch data

/-- The elevation extraction of `getSingleElevationUSGS3DEP`
(`src/src/App.jsx` lines 158-181): `let elevation = 0`, then the
duck-typed shape probe.  The first branch fires whenever
`data.value !== undefined && data.value !== null`, whatever the type of
`value`. -/
def extractElevation (data : USGSResponse) : JsValue :=
  match data.value with
  | some v => if v = JsValue.null then catalogOrPixel data else v
  | none => catalogOrPixel data

/-- The catalog-items branch in isolation, used to characterise the probe:
the `Pixel_Value` of the first catalog feature when the whole
`catalogItems -> features -> attributes -> Pixel_Value` chain is present,
else elevation `0`. -/
def catalogElevation (data : USGSResponse) : JsValue :=
  match data.catalogItems with
  | some ci =>
    match ci.features with
    | some (feature :: _) =>
      match feature.attributes with
      | some attrs =>
        match attrs.Pixel_Value with
        | some pv => pv
        | none => JsValue.num 0
      | none => JsValue.num 0
    | some [] => JsValue.num 0
    | none => JsValue.num 0
  | none => JsValue.num 0

/-- One output point of a provider method: the object
`{longitude, latitude, elevation, distance, distanceKm}` built at
`src/src/App.jsx` lines 105-111 and 220-226. -/
structure ElevationPoint where
  longitude : ℝ
  latitude : ℝ
  elevation : ℝ
  distance : ℝ
  distanceKm : ℝ

/-- The `statistics` object of `getElevationProfile`
(`src/src/App.jsx` lines 276-284). -/
structure ProfileStatistics where
  totalDistanceMeters : ℝ
  totalDistanceKm : ℝ
  minElevation : ℝ
  maxElevation : ℝ
  elevationGain : ℝ
  elevationLoss : ℝ
  numberOfPoints : ℕ

/-- The profile result `{points, statistics}` of `getElevationProfile`
(`src/src/App.jsx` lines 274-285). -/
structure ElevationProfile where
  points : List ElevationPoint
  statistics : ProfileStatistics

/-- One `{latitude, longitude}` object of the Open-Elevation POST body
(`src/src/App.jsx` lines 197-200). -/
structure OpenLocation where
  latitude : ℝ
  longitude : ℝ

/-- Source method `getElevationFromUSGS3DEP(coordinates)`, `src/src/App.jsx` lines
73-122.  `usgs` is the network oracle giving the outcome of one
`getSingleElevationUSGS3DEP` call: a thrown error, or the parsed elevation.
The body samples the coordinates, queries each sampled point inside a
per-point `try/catch` that pushes `0` on error (line 99), computes
cumulative distances over the sampled coordinates and zips everything into
point objects.  No statement of the body outside the per-point `catch` can
throw for a list input, so the attempt always succeeds. -/
noncomputable def getElevationFromUSGS3DEP (usgs : Coord → Except JsError ℝ)
    (coordinates : List Coord) : Except JsError (List ElevationPoint) :=
  let sampledCoords := sampleCoords coordinates
  let allElevationData := sampledCoords.map (fun coord =>
    match usgs coord with
    | Except.ok e => e
    | Except.error _ => 0)
  let distances := calculateCumulativeDistances sampledCoords
  Except.ok (sampledCoords.mapIdx (fun index coord =>
    { longitude := coord.1
      latitude := coord.2
      elevation := allElevationData.getD index 0
      distance := distances.getD index 0
      distanceKm := distances.getD index 0 / 1000 }))

/-- Source method `getElevationFromOpenElevation(coordinates)`, `src/src/App.jsx`
lines 185-236.  `openElev` is the network oracle for the single batch POST:
a transport/HTTP/shape failure, or the `results` elevation array.  The body
samples the coordinates identically to the USGS method, builds the
locations request from the sampled coordinates, and maps over
`data.results`; indexing `sampledCoords[index]` past the end of the sampled
array (a longer `results` than the request) throws a TypeError, modelled by
the length guard. -/
noncomputable def getElevationFromOpenElevation
    (openElev : List OpenLocation → Except JsError (List ℝ))
    (coordinates : List Coord) : Except JsError (List ElevationPoint) :=
  let sampledCoords := sampleCoords coordinates
  let locations := sampledCoords.map (fun coord =>
    { latitude := coord.2, longitude := coord.1 : OpenLocation })
  match openElev locations with
  | Except.error e => Except.error e
  | Except.ok results =>
    if sampledCoords.length < results.length then Except.error JsError.typeError
    else
      let distances := calculateCumulativeDistances sampledCoords
      Except.ok (results.mapIdx (fun index result =>
        { longitude := (sampledCoords.getD index (0, 0)).1
          latitude := (sampledCoords.getD index (0, 0)).2
          elevation := result
          distance := distances.getD index 0
          distanceKm := distances.getD index 0 / 1000 }))

/-- The statistics block of `getElevationProfile`
(`src/src/App.jsx` lines 263-285): `elevations`, `totalDistance` (the
`distance` of the last point) and the returned `{points, statistics}`. -/
noncomputable def buildProfile (elevationData : List ElevationPoint) : ElevationProfile :=
  let elevations := elevationData.map (fun point => point.elevation)
  let totalDistance :=
    (elevationData.getLast?.getD
      { longitude := 0, latitude := 0, elevation := 0, distance := 0, distanceKm := 0 }).distance
  { points := elevationData
    statistics :=
      { totalDistanceMeters := totalDistance
        totalDistanceKm := totalDistance / 1000
        minElevation := jsMathMin elevations
        maxElevation := jsMathMax elevations
        elevationGain := calculateElevationGain elevations
        elevationLoss := calculateElevationLoss elevations
        numberOfPoints := elevationData.length } }

/-- The tail of `getElevationProfile` after a provider attempt succeeded:
on an empty `elevationData`, line 264
(`elevationData[elevationData.length - 1].distance`) throws a TypeError
(outside any `try`); otherwise the profile is built. -/
noncomputable def finishProfile (elevationData : List ElevationPoint) :
    Except JsError ElevationProfile :=
  match elevationData with
  | [] => Except.error JsError.typeError
  | _ :: _ => Except.ok (buildProfile elevationData)

/-- Source method `getElevationProfile(coordinates, map)`, `src/src/App.jsx` lines
238-286: reject `!coordinates || coordinates.length < 2`, try the USGS
3DEP provider, on a thrown error try the Open-Elevation provider (both
with the same full `coordinates`, each sampling identically), on a second
thrown error throw the terminal all-sources error; on success compute the
statistics.  `none` models a missing (`null`/`undefined`) coordinates
argument. -/
noncomputable def getElevationProfile (usgs : Coord → Except JsError ℝ)
    (openElev : List OpenLocation → Except JsError (List ℝ))
    (coordinates : Option (List Coord)) : Except JsError ElevationProfile :=
  match coordinates with
  | none => Except.error JsError.inputError
  | some coords =>
    if coords.length < 2 then Except.error JsError.inputError
    else
      match getElevationFromUSGS3DEP usgs coords with
      | Except.ok elevationData => finishProfile elevationData
      | Except.error _ =>
        match getElevationFromOpenElevation openElev coords with
        | Except.ok elevationData => finishProfile elevationData
        | Except.error _ => Except.error JsError.allProvidersFailed

/-- Network oracle where every per-point USGS query throws HTTP 500. -/
def usgsAll500 : Coord → Except JsError ℝ := fun _ => Except.error (JsError.httpError 500)

/-- Network oracle where the Open-Elevation batch call would succeed with
elevations `[7, 8]`. -/
noncomputable def openOk78 : List OpenLocation → Except JsError (List ℝ) :=
  fun _ => Except.ok [7, 8]

/-- Network oracle where the Open-Elevation batch call returns a single
elevation `[5]` regardless of how many points were requested. -/
noncomputable def openShort5 : List OpenLocation → Except JsError (List ℝ) :=
  fun _ => Except.ok [5]

/-- A degenerate two-point input: the same coordinate twice. -/
noncomputable def pairZero : List Coord := [(0, 0), (0, 0)]

/-- The all-zero point produced for a failed per-point query at the origin. -/
noncomputable def pointZero : ElevationPoint :=
  { longitude := 0, latitude := 0, elevation := 0, distance := 0, distanceKm := 0 }

/-- The profile `getElevationProfile` produces on `pairZero` when every
per-point USGS query fails. -/
noncomputable def profZeros : ElevationProfile :=
  { points := [pointZero, pointZero]
    statistics :=
      { totalDistanceMeters := 0
        totalDistanceKm := 0
        minElevation := 0
        maxElevation := 0
        elevationGain := 0
        elevationLoss := 0
        numberOfPoints := 2 } }

/-- The single point built from the mismatched one-element `results`
array in the C2 scenario. -/
noncomputable def pointFive : ElevationPoint :=
  { longitude := 0, latitude := 0, elevation := 5, distance := 0, distanceKm := 0 }

lemma atan2_nonneg (y x : ℝ) (hy : 0 ≤ y) : 0 ≤ atan2 y x :=
  Complex.arg_nonneg_iff.mpr hy

lemma atan2_zero_one : atan2 0 1 = 0 := by
  have h : (⟨1, 0⟩ : ℂ) = 1 := by
    apply Complex.ext <;> simp
  unfold atan2
  rw [h, Complex.arg_one]

lemma haversineDistance_nonneg (coord1 coord2 : Coord) :
    0 ≤ haversineDistance coord1 coord2 := by
  simp only [haversineDistance]
  have h := atan2_nonneg
    (Real.sqrt (Real.sin ((coord2.2 - coord1.2) * Real.pi / 180 / 2) *
        Real.sin ((coord2.2 - coord1.2) * Real.pi / 180 / 2) +
      Real.cos (coord1.2 * Real.pi / 180) * Real.cos (coord2.2 * Real.pi / 180) *
        Real.sin ((coord2.1 - coord1.1) * Real.pi / 180 / 2) *
        Real.sin ((coord2.1 - coord1.1) * Real.pi / 180 / 2)))
    (Real.sqrt (1 - (Real.sin ((coord2.2 - coord1.2) * Real.pi / 180 / 2) *
        Real.sin ((coord2.2 - coord1.2) * Real.pi / 180 / 2) +
      Real.cos (coord1.2 * Real.pi / 180) * Real.cos (coord2.2 * Real.pi / 180) *
        Real.sin ((coord2.1 - coord1.1) * Real.pi / 180 / 2) *
        Real.sin ((coord2.1 - coord1.1) * Real.pi / 180 / 2))))
    (Real.sqrt_nonneg _)
  nlinarith [h]

lemma haversineDistance_self (c : Coord) : haversineDistance c c = 0 := by
  simp [haversineDistance, atan2_zero_one]

lemma haversineDistance_symm (c1 c2 : Coord) :
    haversineDistance c1 c2 = haversineDistance c2 c1 := by
  simp only [haversineDistance]
  have ha : Real.sin ((c1.2 - c2.2) * Real.pi / 180 / 2) *
        Real.sin ((c1.2 - c2.2) * Real.pi / 180 / 2) +
      Real.cos (c2.2 * Real.pi / 180) * Real.cos (c1.2 * Real.pi / 180) *
        Real.sin ((c1.1 - c2.1) * Real.pi / 180 / 2) *
        Real.sin ((c1.1 - c2.1) * Real.pi / 180 / 2) =
      Real.sin ((c2.2 - c1.2) * Real.pi / 180 / 2) *
        Real.sin ((c2.2 - c1.2) * Real.pi / 180 / 2) +
      Real.cos (c1.2 * Real.pi / 180) * Real.cos (c2.2 * Real.pi / 180) *
        Real.sin ((c2.1 - c1.1) * Real.pi / 180 / 2) *
        Real.sin ((c2.1 - c1.1) * Real.pi / 180 / 2) := by
    rw [show (c1.2 - c2.2) * Real.pi / 180 = -((c2.2 - c1.2) * Real.pi / 180) by ring,
      neg_div, Real.sin_neg,
      show (c1.1 - c2.1) * Real.pi / 180 = -((c2.1 - c1.1) * Real.pi / 180) by ring,
      neg_div, Real.sin_neg]
    ring
  rw [ha]

lemma cumFrom_length (l : List Coord) : ∀ total prev, (cumFrom total prev l).length = l.length := by
  induction l with
  | nil => intro total prev; rfl
  | cons c rest ih => intro total prev; simp [cumFrom, ih]

lemma cumFrom_le (l : List Coord) :
    ∀ total prev x, x ∈ cumFrom total prev l → total ≤ x := by
  induction l with
  | nil => intro total prev x hx; cases hx
  | cons c rest ih =>
    intro total prev x hx
    rcases List.mem_cons.mp hx with rfl | hx'
    · have := haversineDistance_nonneg prev c
      linarith
    · have h1 := ih (total + haversineDistance prev c) c x hx'
      have := haversineDistance_nonneg prev c
      linarith

lemma cumFrom_pairwise (l : List Coord) :
    ∀ total prev, List.Pairwise (· ≤ ·) (total :: cumFrom total prev l) := by
  induction l with
  | nil => intro total prev; simp [cumFrom]
  | cons c rest ih =>
    intro total prev
    constructor
    · intro x hx
      exact cumFrom_le (c :: rest) total prev x hx
    · exact ih (total + haversineDistance prev c) c

lemma cumFrom_rec (l : List Coord) :
    ∀ (prev : Coord) (total : ℝ) (i : ℕ), i < l.length →
      (total :: cumFrom total prev l).getD (i + 1) 0 =
        (total :: cumFrom total prev l).getD i 0 +
          haversineDistance ((prev :: l).getD i (0, 0)) ((prev :: l).getD (i + 1) (0, 0)) := by
  induction l with
  | nil => intro prev total i hi; cases hi
  | cons c rest ih =>
    intro prev total i hi
    cases i with
    | zero => simp [cumFrom]
    | succ i =>
      have hi' : i < rest.length := by simpa using hi
      have := ih c (total + haversineDistance prev c) i hi'
      simpa [cumFrom] using this

lemma calculateCumulativeDistances_length (coords : List Coord) (h : coords ≠ []) :
    (calculateCumulativeDistances coords).length = coords.length := by
  match coords with
  | c :: rest => simp [calculateCumulativeDistances, cumFrom_length]

lemma calculateCumulativeDistances_head (coords : List Coord) (h : coords ≠ []) :
    (calculateCumulativeDistances coords).get? 0 = some 0 := by
  match coords with
  | c :: rest => rfl

lemma calculateCumulativeDistances_pairwise (coords : List Coord) :
    List.Pairwise (· ≤ ·) (calculateCumulativeDistances coords) := by
  match coords with
  | [] => simp [calculateCumulativeDistances]
  | c :: rest =>
    simpa only [calculateCumulativeDistances] using cumFrom_pairwise rest 0 c

lemma calculateCumulativeDistances_rec (coords : List Coord) (i : ℕ)
    (hi : i + 1 < coords.length) :
    (calculateCumulativeDistances coords).getD (i + 1) 0 =
      (calculateCumulativeDistances coords).getD i 0 +
        haversineDistance (coords.getD i (0, 0)) (coords.getD (i + 1) (0, 0)) := by
  match coords with
  | [] => simp at hi
  | c :: rest =>
    have hi' : i < rest.length := by simpa using hi
    simpa only [calculateCumulativeDistances] using cumFrom_rec rest c 0 i hi'

lemma sampleStep_pos (n : ℕ) : 0 < sampleStep n :=
  lt_of_lt_of_le one_pos (le_max_left _ _)

lemma enumFrom_filter_shift (step : ℕ) (l : List α) :
    ∀ k, ((List.enumFrom (k + step) l).filter (fun p => p.1 % step == 0)).map Prod.snd =
      ((List.enumFrom k l).filter (fun p => p.1 % step == 0)).map Prod.snd := by
  induction l with
  | nil => intro k; rfl
  | cons a t ih =>
    intro k
    simp only [List.enumFrom_cons, List.filter_cons]
    have hmod : (k + step) % step = k % step := Nat.add_mod_right k step
    rw [show k + step + 1 = (k + 1) + step by omega]
    by_cases hk : k % step = 0
    · simp [hmod, hk, ih (k + 1)]
    · simp [hmod, hk, ih (k + 1)]

lemma enumFrom_filter_drop (step : ℕ) (hstep : 0 < step) (l : List α) :
    ∀ k, 1 ≤ k → k ≤ step →
      ((List.enumFrom k l).filter (fun p => p.1 % step == 0)).map Prod.snd =
        (((l.drop (step - k)).enum).filter (fun p => p.1 % step == 0)).map Prod.snd := by
  induction l with
  | nil => intro k h1 h2; simp
  | cons a t ih =>
    intro k h1 h2
    rcases eq_or_lt_of_le h2 with rfl | hlt
    · simp only [Nat.sub_self, List.drop_zero, List.enum_cons, List.enumFrom_cons,
        List.filter_cons]
      have h0 : k % k = 0 := Nat.mod_self k
      have hshift := enumFrom_filter_shift k t 1
      simp only [Nat.zero_mod, h0]
      simp only [show k + 1 = 1 + k by omega] at *
      simp [hshift]
    · have hk : k % step ≠ 0 := by
        intro hcon
        have := Nat.eq_zero_of_dvd_of_lt (Nat.dvd_of_mod_eq_zero hcon) hlt
        omega
      have hdrop : (a :: t).drop (step - k) = t.drop (step - (k + 1)) := by
        have h3 : step - k = (step - (k + 1)) + 1 := by omega
        rw [h3, List.drop_succ_cons]
      rw [hdrop]
      simp only [List.enumFrom_cons, List.filter_cons]
      rw [if_neg (by simp [hk])]
      simpa using ih (k + 1) (by omega) (by omega)

lemma filter_enum_eq_takeEvery (step : ℕ) (hstep : 0 < step) :
    ∀ l : List α, ((l.enum.filter (fun p => p.1 % step == 0)).map Prod.snd) = takeEvery step l
  | [] => by simp [takeEvery]
  | a :: rest => by
    rw [takeEvery, List.enum_cons]
    simp only [List.filter_cons]
    rw [if_pos (by simp)]
    simp only [List.map_cons]
    rw [enumFrom_filter_drop step hstep rest 1 le_rfl hstep]
    rw [filter_enum_eq_takeEvery step hstep (rest.drop (step - 1))]
termination_by l => l.length
decreasing_by
  simp only [List.length_drop, List.length_cons]
  omega

lemma takeEvery_length (step : ℕ) (hstep : 0 < step) :
    ∀ l : List α, (takeEvery step l).length = (l.length + (step - 1)) / step
  | [] => by simp [takeEvery, Nat.div_eq_of_lt (by omega : step - 1 < step)]
  | a :: rest => by
    rw [takeEvery]
    simp only [List.length_cons]
    rw [takeEvery_length step hstep (rest.drop (step - 1))]
    simp only [List.length_drop]
    rcases le_or_lt (step - 1) rest.length with hle | hlt
    · rw [show rest.length - (step - 1) + (step - 1) = rest.length by omega,
        show rest.length + 1 + (step - 1) = rest.length + step by omega,
        Nat.add_div_right _ hstep]
    · rw [show rest.length - (step - 1) + (step - 1) = step - 1 by omega,
        show rest.length + 1 + (step - 1) = rest.length + step by omega,
        Nat.add_div_right _ hstep,
        Nat.div_eq_of_lt (by omega : step - 1 < step),
        Nat.div_eq_of_lt (by omega : rest.length < step)]
termination_by l => l.length
decreasing_by
  simp only [List.length_drop, List.length_cons]
  omega

lemma takeEvery_get? (step : ℕ) (hstep : 0 < step) :
    ∀ (l : List α) (j : ℕ), (takeEvery step l).get? j = l.get? (j * step)
  | [], j => by simp [takeEvery]
  | a :: rest, 0 => by simp [takeEvery]
  | a :: rest, j + 1 => by
    have h : (j + 1) * step = (step - 1 + j * step) + 1 := by
      have h2 : (j + 1) * step = j * step + step := by ring
      omega
    rw [takeEvery, List.get?_cons_succ, takeEvery_get? step hstep (rest.drop (step - 1)) j,
      List.get?_drop, h, List.get?_cons_succ]
termination_by l _ => l.length
decreasing_by
  simp only [List.length_drop, List.length_cons]
  omega

lemma sampleCoords_eq_takeEvery (coords : List Coord) :
    sampleCoords coords = takeEvery (sampleStep coords.length) coords :=
  filter_enum_eq_takeEvery _ (sampleStep_pos _) _

lemma sampleCoords_get? (coords : List Coord) (j : ℕ) :
    (sampleCoords coords).get? j = coords.get? (j * sampleStep coords.length) := by
  rw [sampleCoords_eq_takeEvery, takeEvery_get? _ (sampleStep_pos _)]

lemma sampleCoords_length (coords : List Coord) :
    (sampleCoords coords).length =
      (coords.length + (sampleStep coords.length - 1)) / sampleStep coords.length := by
  rw [sampleCoords_eq_takeEvery, takeEvery_length _ (sampleStep_pos _)]

lemma sampleCoords_ne_nil (coords : List Coord) (h : coords ≠ []) :
    sampleCoords coords ≠ [] := by
  intro hcon
  have h0 := sampleCoords_get? coords 0
  rw [hcon] at h0
  cases coords with
  | nil => exact h rfl
  | cons c rest => simp at h0

lemma foldl_min_le_init (t : List ℝ) : ∀ a : ℝ, t.foldl min a ≤ a := by
  induction t with
  | nil => intro a; simp
  | cons b t ih =>
    intro a
    calc t.foldl min (min a b) ≤ min a b := ih _
      _ ≤ a := min_le_left a b

lemma foldl_min_le_mem (t : List ℝ) : ∀ (a x : ℝ), x ∈ t → t.foldl min a ≤ x := by
  induction t with
  | nil => intro a x hx; cases hx
  | cons b t ih =>
    intro a x hx
    rcases List.mem_cons.mp hx with rfl | hx'
    · exact le_trans (foldl_min_le_init t _) (min_le_right a x)
    · exact ih _ _ hx'

lemma jsMathMin_le (l : List ℝ) (x : ℝ) (hx : x ∈ l) : jsMathMin l ≤ x := by
  cases l with
  | nil => cases hx
  | cons a t =>
    rcases List.mem_cons.mp hx with rfl | hx'
    · exact foldl_min_le_init t x
    · exact foldl_min_le_mem t a x hx'

lemma foldl_max_init_le (t : List ℝ) : ∀ a : ℝ, a ≤ t.foldl max a := by
  induction t with
  | nil => intro a; simp
  | cons b t ih =>
    intro a
    calc a ≤ max a b := le_max_left a b
      _ ≤ t.foldl max (max a b) := ih _

lemma foldl_max_mem_le (t : List ℝ) : ∀ (a x : ℝ), x ∈ t → x ≤ t.foldl max a := by
  induction t with
  | nil => intro a x hx; cases hx
  | cons b t ih =>
    intro a x hx
    rcases List.mem_cons.mp hx with rfl | hx'
    · exact le_trans (le_max_right a x) (foldl_max_init_le t _)
    · exact ih _ _ hx'

lemma jsMathMax_ge (l : List ℝ) (x : ℝ) (hx : x ∈ l) : x ≤ jsMathMax l := by
  cases l with
  | nil => cases hx
  | cons a t =>
    rcases List.mem_cons.mp hx with rfl | hx'
    · exact foldl_max_init_le t x
    · exact foldl_max_mem_le t a x hx'

lemma calculateElevationGain_nonneg : ∀ l : List ℝ, 0 ≤ calculateElevationGain l
  | [] => le_refl 0
  | [_] => le_refl 0
  | a :: b :: rest => by
    have ih := calculateElevationGain_nonneg (b :: rest)
    rw [calculateElevationGain]
    have h1 : (0 : ℝ) ≤ if b - a > 0 then b - a else 0 := by
      split
      · linarith
      · exact le_refl 0
    linarith

lemma calculateElevationLoss_nonneg : ∀ l : List ℝ, 0 ≤ calculateElevationLoss l
  | [] => le_refl 0
  | [_] => le_refl 0
  | a :: b :: rest => by
    have ih := calculateElevationLoss_nonneg (b :: rest)
    rw [calculateElevationLoss]
    have h1 : (0 : ℝ) ≤ if b - a < 0 then |b - a| else 0 := by
      split
      · exact abs_nonneg _
      · exact le_refl 0
    linarith

lemma gain_sub_loss : ∀ (l : List ℝ) (h : l ≠ []),
    calculateElevationGain l - calculateElevationLoss l = l.getLast h - l.head h
  | [], h => absurd rfl h
  | [a], _ => by
    simp [calculateElevationGain, calculateElevationLoss]
  | a :: b :: rest, _ => by
    have ih := gain_sub_loss (b :: rest) (List.cons_ne_nil b rest)
    rw [calculateElevationGain, calculateElevationLoss,
      List.getLast_cons (List.cons_ne_nil b rest), List.head_cons]
    have hd : (if b - a > 0 then b - a else 0) - (if b - a < 0 then |b - a| else 0) =
        b - a := by
      rcases lt_trichotomy (b - a) 0 with hneg | hzero | hpos
      · rw [if_neg (by linarith), if_pos hneg, abs_of_neg hneg]
        ring
      · rw [if_neg (by simp [hzero]), if_neg (by simp [hzero])]
        rw [hzero]
        ring
      · rw [if_pos hpos, if_neg (by linarith)]
        ring
    rw [List.head_cons] at ih
    linarith [ih]

lemma pixelBranch_of_falsy (data : USGSResponse) (h : jsTruthy data.value = false) :
    pixelBranch data = JsValue.num 0 := by
  unfold pixelBranch
  rw [if_neg]
  intro hcon
  rw [hcon.2] at h
  cases h

lemma catalogOrPixel_of_falsy (data : USGSResponse) (h : jsTruthy data.value = false) :
    catalogOrPixel data =
      match data.catalogItems with
      | some ci =>
        match ci.features with
        | some (feature :: _) =>
          match feature.attributes with
          | some attrs =>
            match attrs.Pixel_Value with
            | some pv => pv
            | none => JsValue.num 0
          | none => JsValue.num 0
        | some [] => JsValue.num 0
        | none => JsValue.num 0
      | none => JsValue.num 0 := by
  unfold catalogOrPixel
  rw [pixelBranch_of_falsy data h]

lemma catalogOrPixel_eq_catalogElevation (data : USGSResponse)
    (h : jsTruthy data.value = false) :
    catalogOrPixel data = catalogElevation data := by
  rw [catalogOrPixel_of_falsy data h]
  rfl

lemma map_mapIdx (l : List α) (f : ℕ → α → β) (g : β → γ) :
    (l.mapIdx f).map g = l.mapIdx (fun i a => g (f i a)) := by
  induction l generalizing f with
  | nil => rfl
  | cons a t ih => simp only [List.mapIdx_cons, List.map_cons, ih]

lemma mapIdx_getD_self (l : List α) : ∀ m : List ℝ, l.length = m.length →
    l.mapIdx (fun i _ => m.getD i 0) = m := by
  induction l with
  | nil =>
    intro m hm
    cases m with
    | nil => rfl
    | cons b mt => simp at hm
  | cons a t ih =>
    intro m hm
    cases m with
    | nil => simp at hm
    | cons b mt =>
      simp only [List.mapIdx_cons, List.getD_cons_zero, List.getD_cons_succ]
      rw [ih mt (by simpa using hm)]

lemma usgs_points_elevations (usgs : Coord → Except JsError ℝ) (coordinates : List Coord) :
    ∃ pts, getElevationFromUSGS3DEP usgs coordinates = Except.ok pts ∧
      pts.map (fun p => p.elevation) = (sampleCoords coordinates).map (fun coord =>
        match usgs coord with
        | Except.ok e => e
        | Except.error _ => 0) := by
  refine ⟨_, rfl, ?_⟩
  rw [map_mapIdx]
  exact mapIdx_getD_self _ _ (by simp)

lemma finishProfile_ok_inv (elevationData : List ElevationPoint) (prof : ElevationProfile)
    (h : finishProfile elevationData = Except.ok prof) :
    elevationData ≠ [] ∧ prof = buildProfile elevationData := by
  match elevationData with
  | [] => simp [finishProfile] at h
  | e :: rest =>
    simp only [finishProfile] at h
    injection h with h'
    exact ⟨List.cons_ne_nil e rest, h'.symm⟩

lemma getElevationProfile_ok_inv (usgs : Coord → Except JsError ℝ)
    (openElev : List OpenLocation → Except JsError (List ℝ))
    (co : Option (List Coord)) (prof : ElevationProfile)
    (h : getElevationProfile usgs openElev co = Except.ok prof) :
    ∃ elevationData, elevationData ≠ [] ∧ prof = buildProfile elevationData := by
  match co with
  | none => simp [getElevationProfile] at h
  | some coords =>
    rw [getElevationProfile] at h
    split at h
    · simp at h
    · split at h
      · exact ⟨_, (finishProfile_ok_inv _ _ h).1, (finishProfile_ok_inv _ _ h).2⟩
      · split at h
        · exact ⟨_, (finishProfile_ok_inv _ _ h).1, (finishProfile_ok_inv _ _ h).2⟩
        · simp at h

lemma buildProfile_min_max (elevationData : List ElevationPoint) (pt : ElevationPoint)
    (hpt : pt ∈ elevationData) :
    (buildProfile elevationData).statistics.minElevation ≤ pt.elevation ∧
      pt.elevation ≤ (buildProfile elevationData).statistics.maxElevation := by
  constructor
  · exact jsMathMin_le _ _ (List.mem_map_of_mem _ hpt)
  · exact jsMathMax_ge _ _ (List.mem_map_of_mem _ hpt)

lemma sampleCoords_pairZero : sampleCoords pairZero = pairZero := rfl

lemma cum_pairZero : calculateCumulativeDistances pairZero = [0, 0] := by
  simp [pairZero, calculateCumulativeDistances, cumFrom, haversineDistance_self]

lemma usgs_eval_pairZero :
    getElevationFromUSGS3DEP usgsAll500 pairZero = Except.ok [pointZero, pointZero] := by
  simp only [getElevationFromUSGS3DEP, sampleCoords_pairZero, cum_pairZero, usgsAll500]
  norm_num [pairZero, List.mapIdx_cons, pointZero]

lemma getElevationProfile_all500 :
    getElevationProfile usgsAll500 openOk78 (some pairZero) = Except.ok profZeros := by
  rw [getElevationProfile, if_neg (by norm_num [pairZero]), usgs_eval_pairZero]
  simp only [finishProfile, buildProfile]
  norm_num [profZeros, pointZero, jsMathMin, jsMathMax, calculateElevationGain,
    calculateElevationLoss]

lemma open_eval_short :
    getElevationFromOpenElevation openShort5 pairZero = Except.ok [pointFive] := by
  simp only [getElevationFromOpenElevation, sampleCoords_pairZero, openShort5, cum_pairZero]
  rw [if_neg (by norm_num [pairZero])]
  norm_num [pairZero, List.mapIdx_cons, pointFive]

lemma open_elevation_cases (openElev : List OpenLocation → Except JsError (List ℝ))
    (coords : List Coord) (results : List ℝ)
    (hresp : openElev ((sampleCoords coords).map (fun coord =>
      { latitude := coord.2, longitude := coord.1 : OpenLocation })) = Except.ok results) :
    ((sampleCoords coords).length < results.length →
      getElevationFromOpenElevation openElev coords = Except.error JsError.typeError) ∧
    (results.length ≤ (sampleCoords coords).length →
      (getElevationFromOpenElevation openElev coords).map (fun pts => pts.length) =
        Except.ok results.length) := by
  constructor
  · intro hlt
    simp only [getElevationFromOpenElevation, hresp]
    rw [if_pos hlt]
  · intro hle
    simp only [getElevationFromOpenElevation, hresp]
    rw [if_neg (not_lt.mpr hle)]
    simp [Except.map, List.length_mapIdx]

/-- C1 (corrected): if every per-point query of the primary USGS 3DEP
provider fails, the per-point `catch` at `src/src/App.jsx` line 99
substitutes elevation 0 for each point, so the primary attempt as a whole
still succeeds: for any fallback oracle `openElev`, `getElevationProfile`
returns the profile whose elevations are all 0, built from the primary
attempt — the fallback batch provider is not consulted.  (The claim's
scenario of falling back is refuted by `primary_all_fail_counterexample`.) -/
theorem primary_per_point_failures_do_not_trigger_fallback
    (usgs : Coord → Except JsError ℝ)
    (openElev : List OpenLocation → Except JsError (List ℝ))
    (coords : List Coord)
    (hfail : ∀ c, ∃ err, usgs c = Except.error err) (hlen : 2 ≤ coords.length) :
    (getElevationProfile usgs openElev (some coords)).map
        (fun prof => prof.points.map (fun p => p.elevation)) =
      Except.ok (List.replicate (sampleCoords coords).length 0) := by
  obtain ⟨pts, hpts, hmap⟩ := usgs_points_elevations usgs coords
  have hcne : coords ≠ [] := by
    intro hc
    rw [hc] at hlen
    simp at hlen
  have hsne := sampleCoords_ne_nil coords hcne
  have hne : pts ≠ [] := by
    intro hcon
    rw [hcon] at hmap
    exact hsne (List.map_eq_nil.mp hmap.symm)
  have hrep : (sampleCoords coords).map (fun coord =>
      match usgs coord with
      | Except.ok e => e
      | Except.error _ => 0) = List.replicate (sampleCoords coords).length (0 : ℝ) := by
    apply List.eq_replicate.mpr
    constructor
    · simp
    · intro b hb
      simp only [List.mem_map] at hb
      obtain ⟨c, hc, hbc⟩ := hb
      obtain ⟨err, herr⟩ := hfail c
      rw [herr] at hbc
      exact hbc.symm
  rw [getElevationProfile, if_neg (by omega), hpts]
  cases pts with
  | nil => exact absurd rfl hne
  | cons e rest =>
    simp only [finishProfile, Except.map]
    rw [show (buildProfile (e :: rest)).points = e :: rest from rfl, hmap, hrep]

/-- Witness for the corrected C1 theorem at the concrete input: two
sampled points, HTTP 500 on both per-point queries. -/
theorem primary_per_point_failures_witness :
    (getElevationProfile usgsAll500 openOk78 (some pairZero)).map
        (fun prof => prof.points.map (fun p => p.elevation)) =
      Except.ok (List.replicate (sampleCoords pairZero).length 0) :=
  primary_per_point_failures_do_not_trigger_fallback usgsAll500 openOk78 pairZero
    (fun _ => ⟨JsError.httpError 500, rfl⟩) (by norm_num [pairZero])

/-- C1 counterexample: every per-point USGS query fails with HTTP 500,
while the fallback oracle would answer elevations `[7, 8]`; yet the call
returns the zero-elevation profile built from the primary attempt, so the
fallback's results are not the ones used. -/
theorem primary_all_fail_counterexample :
    getElevationProfile usgsAll500 openOk78 (some pairZero) = Except.ok profZeros ∧
    profZeros.points.map (fun p => p.elevation) = [0, 0] ∧
    ([0, 0] : List ℝ) ≠ [7, 8] := by
  refine ⟨getElevationProfile_all500, by norm_num [profZeros, pointZero], by norm_num⟩

/-- C2 (corrected): for the batch fallback provider, only a `results`
array longer than the sampled coordinate list makes the attempt fail (the
`sampledCoords[index]` access past the end throws); a `results` array
shorter than the request is not detected — the attempt succeeds and the
profile has one point per result. -/
theorem open_elevation_length_mismatch
    (openElev : List OpenLocation → Except JsError (List ℝ))
    (coords : List Coord) (results : List ℝ)
    (hresp : openElev ((sampleCoords coords).map (fun coord =>
      { latitude := coord.2, longitude := coord.1 : OpenLocation })) = Except.ok results) :
    ((sampleCoords coords).length < results.length →
      getElevationFromOpenElevation openElev coords = Except.error JsError.typeError) ∧
    (results.length ≤ (sampleCoords coords).length →
      (getElevationFromOpenElevation openElev coords).map (fun pts => pts.length) =
        Except.ok results.length) :=
  open_elevation_cases openElev coords results hresp

/-- Witness for the corrected C2 theorem: one result for two sampled
coordinates gives a successful one-point attempt. -/
theorem open_elevation_length_mismatch_witness :
    (getElevationFromOpenElevation openShort5 pairZero).map (fun pts => pts.length) =
      Except.ok 1 := by
  have h := (open_elevation_length_mismatch openShort5 pairZero [5] rfl).2
    (by rw [sampleCoords_pairZero]; norm_num [pairZero])
  simpa using h

/-- C2 counterexample: the response has 1 result while 2 coordinates were
sampled and sent, yet `getElevationFromOpenElevation` succeeds and builds
a (one-point) profile from the mismatched results instead of failing. -/
theorem open_elevation_short_results_counterexample :
    getElevationFromOpenElevation openShort5 pairZero = Except.ok [pointFive] ∧
    (sampleCoords pairZero).length = 2 ∧ (1 : ℕ) ≠ 2 := by
  refine ⟨open_eval_short, rfl, by norm_num⟩

/-- C3 (corrected): the first branch of the shape probe fires whenever
`value` is present and non-`null`, whatever its type, and returns it
unchanged — so a string `value` is passed through as-is and the
`name === "Pixel"` space-delimited branch is unreachable; when `value` is
absent or `null` the result is the catalog-items extraction
(`Pixel_Value` of the first feature, else 0), never the parsed string. -/
theorem usgs_parse_precedence (data : USGSResponse) :
    (∀ v, data.value = some v → v ≠ JsValue.null → extractElevation data = v) ∧
    ((data.value = none ∨ data.value = some JsValue.null) →
      extractElevation data = catalogElevation data) := by
  constructor
  · intro v hv hne
    unfold extractElevation
    rw [hv]
    simp [hne]
  · intro hcase
    unfold extractElevation
    rcases hcase with hnone | hnull
    · rw [hnone]
      exact catalogOrPixel_eq_catalogElevation data (by rw [hnone]; rfl)
    · rw [hnull]
      simp only [if_pos rfl]
      exact catalogOrPixel_eq_catalogElevation data (by rw [hnull]; rfl)

/-- Witness for the corrected C3 theorem: a numeric `value` is returned
by the first branch. -/
theorem usgs_parse_precedence_witness :
    extractElevation
        { value := some (JsValue.num 5), catalogItems := none, name := none } =
      JsValue.num 5 :=
  (usgs_parse_precedence _).1 (JsValue.num 5) rfl (by decide)

/-- C3 counterexample: for the response shape
`{name: "Pixel", value: "100 200"}` the claim's precedence would parse the
first space-delimited token, elevation `100`; the code's first branch
fires on the non-null `value` and yields the raw string `"100 200"`
instead.  (`"100"` is the head of `"100 200".split(' ')`, and
`parseFloat("100") || 0` is `100`, as the second conjunct computes.) -/
theorem usgs_parse_pixel_string_counterexample :
    extractElevation
        { value := some (JsValue.str "100 200"), catalogItems := none,
          name := some (JsValue.str "Pixel") } = JsValue.str "100 200" ∧
    JsValue.num ((parseFloat "100").getD 0) = JsValue.num 100 ∧
    JsValue.str "100 200" ≠ JsValue.num 100 := by
  refine ⟨rfl, ?_, by decide⟩
  have h1 : parseFloat "100" = some (1 * ((digitsVal ['1', '0', '0'] : ℚ) +
      (digitsVal ([] : List Char) : ℚ) / 10 ^ (0 : ℕ))) := rfl
  have h2 : digitsVal ['1', '0', '0'] = 100 := rfl
  have h3 : digitsVal ([] : List Char) = 0 := rfl
  rw [h1, h2, h3]
  norm_num

/-- C4 (confirmed): the primary provider's attempt never fails as a whole:
it always returns `Except.ok`, and each sampled point contributes its
queried elevation when the per-point call succeeds, and the placeholder 0
when the per-point call throws — the loop continues over the remaining
points either way. -/
theorem per_point_failure_is_local (usgs : Coord → Except JsError ℝ)
    (coordinates : List Coord) :
    (getElevationFromUSGS3DEP usgs coordinates).isOk = true ∧
    (getElevationFromUSGS3DEP usgs coordinates).map
        (fun pts => pts.map (fun p => p.elevation)) =
      Except.ok ((sampleCoords coordinates).map (fun coord =>
        match usgs coord with
        | Except.ok e => e
        | Except.error _ => 0)) := by
  obtain ⟨pts, hpts, hmap⟩ := usgs_points_elevations usgs coordinates
  rw [hpts]
  exact ⟨rfl, by simp [Except.map, hmap]⟩

/-- C5 (confirmed): a missing coordinate array or one of length 0 or 1 is
rejected with the input error, for every provider oracle — the guard at
`src/src/App.jsx` lines 239-241 runs before any provider code. -/
theorem input_error_short_input :
    (∀ (usgs : Coord → Except JsError ℝ)
        (openElev : List OpenLocation → Except JsError (List ℝ)),
      getElevationProfile usgs openElev none = Except.error JsError.inputError) ∧
    (∀ (usgs : Coord → Except JsError ℝ)
        (openElev : List OpenLocation → Except JsError (List ℝ))
        (coords : List Coord), coords.length < 2 →
      getElevationProfile usgs openElev (some coords) = Except.error JsError.inputError) := by
  constructor
  · intro usgs openElev
    rfl
  · intro usgs openElev coords h
    rw [getElevationProfile, if_pos h]

/-- Witness for C5 at a concrete one-point input. -/
theorem input_error_short_input_witness :
    getElevationProfile usgsAll500 openOk78 (some [((0 : ℝ), (0 : ℝ))]) =
      Except.error JsError.inputError :=
  input_error_short_input.2 usgsAll500 openOk78 [(0, 0)] (by norm_num)

/-- C6 (confirmed): with `maxPoints = 50`, the stride is
`max 1 (floor (len / 50))`; the sampled sequence consists exactly of the
coordinates at the stride multiples (`(sampleCoords coords).get? j` is
`coords.get? (j * stride)` for every `j`), so index 0 is always included;
the sampled length is `ceil (len / stride)`; and the final sampled
element's source index `(sampledLength - 1) * stride` equals `len - 1`
exactly when `len - 1` is a multiple of the stride. -/
theorem sampling_stride_properties (coords : List Coord) :
    sampleStep coords.length = max 1 (coords.length / 50) ∧
    (∀ j, (sampleCoords coords).get? j = coords.get? (j * sampleStep coords.length)) ∧
    (sampleCoords coords).get? 0 = coords.get? 0 ∧
    (sampleCoords coords).length =
      (coords.length + sampleStep coords.length - 1) / sampleStep coords.length ∧
    (((sampleCoords coords).length - 1) * sampleStep coords.length = coords.length - 1 ↔
      (coords.length - 1) % sampleStep coords.length = 0) := by
  have hpos := sampleStep_pos coords.length
  refine ⟨rfl, sampleCoords_get? coords, ?_, ?_, ?_⟩
  · have h := sampleCoords_get? coords 0
    simpa using h
  · rw [sampleCoords_length]
    congr 1
    omega
  · rw [sampleCoords_length]
    rcases Nat.eq_zero_or_pos coords.length with hz | hpos2
    · rw [hz]
      decide
    · have hceil : (coords.length + (sampleStep coords.length - 1)) / sampleStep coords.length =
          (coords.length - 1) / sampleStep coords.length + 1 := by
        rw [show coords.length + (sampleStep coords.length - 1) =
          (coords.length - 1) + sampleStep coords.length by omega,
          Nat.add_div_right _ hpos]
      rw [hceil]
      simp only [Nat.add_sub_cancel]
      constructor
      · intro h
        have hdm := Nat.div_add_mod (coords.length - 1) (sampleStep coords.length)
        have hcomm : sampleStep coords.length * ((coords.length - 1) / sampleStep coords.length) =
            ((coords.length - 1) / sampleStep coords.length) * sampleStep coords.length :=
          Nat.mul_comm _ _
        omega
      · intro h
        exact Nat.div_mul_cancel (Nat.dvd_of_mod_eq_zero h)

/-- C7 (corrected to non-empty inputs; the empty case is refuted by
`cumulative_distances_empty_counterexample`): for every non-empty
coordinate sequence, `calculateCumulativeDistances` has the input's
length, starts at 0, satisfies the stepwise recurrence
`d(i+1) = d(i) + haversineDistance(coords[i], coords[i+1])`, and is
monotonically non-decreasing. -/
theorem cumulative_distances_spec (coords : List Coord) (h : coords ≠ []) :
    (calculateCumulativeDistances coords).length = coords.length ∧
    (calculateCumulativeDistances coords).get? 0 = some 0 ∧
    (∀ i, i + 1 < coords.length →
      (calculateCumulativeDistances coords).getD (i + 1) 0 =
        (calculateCumulativeDistances coords).getD i 0 +
          haversineDistance (coords.getD i (0, 0)) (coords.getD (i + 1) (0, 0))) ∧
    List.Pairwise (· ≤ ·) (calculateCumulativeDistances coords) :=
  ⟨calculateCumulativeDistances_length coords h,
   calculateCumulativeDistances_head coords h,
   fun i hi => calculateCumulativeDistances_rec coords i hi,
   calculateCumulativeDistances_pairwise coords⟩

/-- Witness for C7's theorem at a concrete two-point input. -/
theorem cumulative_distances_spec_witness :
    (calculateCumulativeDistances pairZero).length = 2 ∧
    (calculateCumulativeDistances pairZero).get? 0 = some 0 := by
  have h := cumulative_distances_spec pairZero (by simp [pairZero])
  exact ⟨by rw [h.1]; norm_num [pairZero], h.2.1⟩

/-- C7 counterexample: on the empty sequence the source still returns the
one-element array `[0]`, whose length differs from the input's. -/
theorem cumulative_distances_empty_counterexample :
    calculateCumulativeDistances ([] : List Coord) = [0] ∧
    (calculateCumulativeDistances ([] : List Coord)).length ≠ ([] : List Coord).length := by
  refine ⟨rfl, by simp [calculateCumulativeDistances]⟩

/-- C8 (confirmed): `haversineDistance` is symmetric, zero on equal
coordinates, and non-negative; it is a total function of any two (finite)
real coordinates. -/
theorem haversine_metric_properties :
    (∀ a b : Coord, haversineDistance a b = haversineDistance b a) ∧
    (∀ a : Coord, haversineDistance a a = 0) ∧
    (∀ a b : Coord, 0 ≤ haversineDistance a b) :=
  ⟨haversineDistance_symm, haversineDistance_self, haversineDistance_nonneg⟩

/-- C9 (confirmed): every profile `getElevationProfile` returns has
`minElevation ≤ elevation ≤ maxElevation` for each of its points, and for
every non-empty elevation sequence the gain minus the loss telescopes to
last minus first. -/
theorem profile_statistics_invariants :
    (∀ (usgs : Coord → Except JsError ℝ)
        (openElev : List OpenLocation → Except JsError (List ℝ))
        (co : Option (List Coord)) (prof : ElevationProfile),
      getElevationProfile usgs openElev co = Except.ok prof →
        ∀ pt ∈ prof.points,
          prof.statistics.minElevation ≤ pt.elevation ∧
            pt.elevation ≤ prof.statistics.maxElevation) ∧
    (∀ (elevations : List ℝ) (h : elevations ≠ []),
      calculateElevationGain elevations - calculateElevationLoss elevations =
        elevations.getLast h - elevations.head h) := by
  constructor
  · intro usgs openElev co prof h pt hpt
    obtain ⟨ed, hne, rfl⟩ := getElevationProfile_ok_inv usgs openElev co prof h
    exact buildProfile_min_max ed pt hpt
  · exact gain_sub_loss

/-- Witness for C9: the all-zero profile returned on `pairZero` under
all-failing per-point queries bounds its points' elevations, and the
telescoping identity at `[100, 150, 120]` gives `50 - 30 = 120 - 100`. -/
theorem profile_statistics_invariants_witness :
    (profZeros.statistics.minElevation ≤ pointZero.elevation ∧
      pointZero.elevation ≤ profZeros.statistics.maxElevation) ∧
    calculateElevationGain [(100 : ℝ), 150, 120] -
        calculateElevationLoss [(100 : ℝ), 150, 120] =
      List.getLast [(100 : ℝ), 150, 120] (by simp) -
        List.head [(100 : ℝ), 150, 120] (by simp) := by
  constructor
  · exact profile_statistics_invariants.1 usgsAll500 openOk78 (some pairZero) profZeros
      getElevationProfile_all500 pointZero (by simp [profZeros])
  · exact profile_statistics_invariants.2 [100, 150, 120] (by simp)

/-- C10 (confirmed): `calculateElevationGain` and `calculateElevationLoss`
are non-negative on every elevation sequence and are 0 on sequences of
length 0 or 1 (the loop body never runs). -/
theorem gain_loss_nonneg_zero :
    (∀ l : List ℝ, 0 ≤ calculateElevationGain l) ∧
    (∀ l : List ℝ, 0 ≤ calculateElevationLoss l) ∧
    calculateElevationGain ([] : List ℝ) = 0 ∧
    calculateElevationLoss ([] : List ℝ) = 0 ∧
    (∀ x : ℝ, calculateElevationGain [x] = 0 ∧ calculateElevationLoss [x] = 0) := by
  refine ⟨calculateElevationGain_nonneg, calculateElevationLoss_nonneg, ?_, ?_, ?_⟩
  · simp [calculateElevationGain]
  · simp [calculateElevationLoss]
  · intro x
    exact ⟨by simp [calculateElevationGain], by simp [calculateElevationLoss]⟩
